import Mathlib

/-!
Shallow embedding of the shard-router core of src/main.py.

The Python program keeps its state in two SQLAlchemy stores: a master
database (tables worker_dbs, data_mappings, json_schemas, system_config)
and one database per worker node (table data_records).  Rows are modelled
as Lean structures, tables as lists of rows in insertion order, and each
endpoint or helper function as a pure state-passing function.  Randomly
generated uuids and wall-clock values are passed in as explicit
parameters.  Network reachability of a worker database is part of the
environment and is modelled as a boolean on the worker store.
-/

namespace ShardRouter

mutual

/-- JSON values, modelling the payloads stored in the JSON columns.
Numbers are modelled as integers (the spec treats payloads as opaque
JSON; no claim depends on float payloads). -/
inductive Jv where
  | null
  | bool (b : Bool)
  | num (n : Int)
  | str (s : String)
  | arr (elems : JvList)
  | obj (fields : JvFields)
deriving DecidableEq, Repr

/-- A JSON array body. -/
inductive JvList where
  | nil
  | cons (hd : Jv) (tl : JvList)
deriving DecidableEq, Repr

/-- A JSON object body: an ordered list of key-value pairs, as produced
by a Python dict. -/
inductive JvFields where
  | nil
  | cons (key : String) (val : Jv) (tl : JvFields)
deriving DecidableEq, Repr

end

/-- A JSON object, as produced by a Python dict payload. -/
abbrev JObj := JvFields

mutual

/-- Models Python json.dumps with its default separators, for payloads
whose strings contain no characters that json.dumps escapes. -/
def Jv.dump : Jv → String
  | .null => "null"
  | .bool true => "true"
  | .bool false => "false"
  | .num n => toString n
  | .str s => "\"" ++ s ++ "\""
  | .arr elems => "[" ++ dumpList elems ++ "]"
  | .obj fields => "\x7b" ++ dumpFields fields ++ "\x7d"

/-- Comma-separated dump of a JSON array body. -/
def dumpList : JvList → String
  | .nil => ""
  | .cons v .nil => Jv.dump v
  | .cons v rest => Jv.dump v ++ ", " ++ dumpList rest

/-- Comma-separated dump of a JSON object body. -/
def dumpFields : JvFields → String
  | .nil => ""
  | .cons k v .nil => "\"" ++ k ++ "\": " ++ Jv.dump v
  | .cons k v rest => "\"" ++ k ++ "\": " ++ Jv.dump v ++ ", " ++ dumpFields rest

end

/-- Dump of a top-level dict payload, as json.dumps(body.data). -/
def dumpObj (o : JObj) : String := "\x7b" ++ dumpFields o ++ "\x7d"

/-- Models len(json.dumps(data).encode("utf-8")): the byte length used by
the size accounting in write_record. -/
def jsonSizeObj (o : JObj) : Nat := (dumpObj o).utf8ByteSize

/-- Membership test for a key in a JSON object, modelling the Python
expression (field in data) on a dict. -/
def JvFields.hasKey (fields : JvFields) (k : String) : Bool :=
  match fields with
  | .nil => false
  | .cons key _ tl => key == k || tl.hasKey k

/-- First value bound to a key, modelling data[field] on a dict. -/
def JvFields.lookup (fields : JvFields) (k : String) : Option Jv :=
  match fields with
  | .nil => none
  | .cons key v tl => if key == k then some v else tl.lookup k

/-- Replaces the first element satisfying p by its image under f.  This
models an SQLAlchemy query(...).filter_by(...).first() followed by
mutating the returned row inside the session. -/
def updFirst (p : α → Bool) (f : α → α) : List α → List α
  | [] => []
  | x :: xs => if p x then f x :: xs else x :: updFirst p f xs

/-- Removes the first element satisfying p, modelling session.delete on
the row returned by filter_by(...).first(). -/
def removeFirst (p : α → Bool) : List α → List α
  | [] => []
  | x :: xs => if p x then xs else x :: removeFirst p xs

/-- One row of the worker_dbs table of the master database (WorkerDB in
src/main.py).  created_at and meta_info are provenance only and are not
modelled; latency_ms, a rounded float in the source, is modelled as the
measured integer number of milliseconds. -/
structure WorkerDB where
  id : String
  name : String
  db_url : String
  is_active : Bool
  is_healthy : Bool
  size_bytes : Int
  record_count : Int
  latency_ms : Nat
  last_ping : Option Nat
deriving DecidableEq, Repr

/-- One row of the data_mappings table (DataMapping in src/main.py). -/
structure DataMapping where
  record_id : String
  worker_id : String
  collection : String
  user_id : Option String
deriving DecidableEq, Repr

/-- One row of the data_records table of a worker database (DataRecord
in src/main.py); timestamps are not modelled. -/
structure DataRecord where
  id : String
  collection : String
  data : JObj
  owner_id : Option String
  schema_name : Option String
  size_bytes : Int
  tags : List String
deriving DecidableEq, Repr

/-- A property rule of a stored JSON schema (the entries of the
properties object read by validate_against_schema). -/
structure PropRule where
  ptype : Option String
  maxLength : Option Nat
  minimum : Option Int
deriving DecidableEq, Repr

/-- A row of the json_schemas table, with schema_def already shaped as
the validator reads it (its required and properties members). -/
structure JsonSchema where
  name : String
  required : List String
  properties : List (String × PropRule)
deriving DecidableEq, Repr

/-- The state of one worker database: its records plus whether the
router can currently reach it over the network (the environment fact
that decides whether worker_session_ctx raises). -/
structure WorkerStore where
  worker_id : String
  reachable : Bool
  records : List DataRecord
deriving DecidableEq, Repr

/-- The master database state: worker registry, mapping table, stored
schemas, and the two system_config keys the router reads. -/
structure MasterState where
  workers : List WorkerDB
  mappings : List DataMapping
  schemas : List JsonSchema
  shard_limit_mb : Nat
  anti_sleep_enabled : String
deriving DecidableEq, Repr

/-- Full system state: the master database plus every worker store. -/
structure Sys where
  master : MasterState
  stores : List WorkerStore
deriving DecidableEq, Repr

/-- Models int(get_config("shard_limit_mb", str(SHARD_LIMIT_MB))) * 1024
* 1024, the soft capacity limit in bytes. -/
def shardLimitBytes (m : MasterState) : Int :=
  (m.shard_limit_mb : Int) * 1024 * 1024

/-- The filter applied by get_available_worker:
filter_by(is_active=True, is_healthy=True).filter(size_bytes < limit). -/
def eligibleWorker (limit : Int) (w : WorkerDB) : Bool :=
  w.is_active && w.is_healthy && decide (w.size_bytes < limit)

/-- First worker of the list ordered by ascending size_bytes, modelling
order_by(WorkerDB.size_bytes.asc()).first() with a stable order: among
equal sizes the earlier row wins. -/
def minBySize : List WorkerDB → Option WorkerDB
  | [] => none
  | w :: ws =>
    match minBySize ws with
    | none => some w
    | some m => if w.size_bytes ≤ m.size_bytes then some w else some m

/-- Models get_available_worker (src/main.py, lines 433 to 446): the
active, healthy worker below the soft limit with the least used space. -/
def get_available_worker (m : MasterState) : Option WorkerDB :=
  minBySize (m.workers.filter (eligibleWorker (shardLimitBytes m)))

/-- Models get_worker_by_id (src/main.py, lines 448 to 453). -/
def get_worker_by_id (m : MasterState) (worker_id : String) : Option WorkerDB :=
  m.workers.find? (fun w => w.id == worker_id)

/-- Models update_worker_stats (src/main.py, lines 455 to 471): clamps
both counters at zero.  The capacity warning notification it may push is
a side effect on the notifications table and is not modelled. -/
def update_worker_stats (m : MasterState) (worker_id : String)
    (delta_bytes delta_records : Int) : MasterState :=
  { m with
    workers := updFirst (fun w => w.id == worker_id)
      (fun w =>
        { w with
          size_bytes := max 0 (w.size_bytes + delta_bytes)
          record_count := max 0 (w.record_count + delta_records) })
      m.workers }

/-- The isinstance test of validate_against_schema via its type_map.
Python bool is a subclass of int, so a boolean passes the integer and
number checks, as in the source. -/
def jvTypeMatches (expected : String) (v : Jv) : Bool :=
  match expected with
  | "string" => match v with | .str _ => true | _ => false
  | "integer" => match v with | .num _ => true | .bool _ => true | _ => false
  | "number" => match v with | .num _ => true | .bool _ => true | _ => false
  | "boolean" => match v with | .bool _ => true | _ => false
  | "array" => match v with | .arr _ => true | _ => false
  | "object" => match v with | .obj _ => true | _ => false
  | _ => false

/-- Whether expected names one of the six keys of type_map. -/
def knownType (expected : String) : Bool :=
  expected == "string" || expected == "integer" || expected == "number" ||
  expected == "boolean" || expected == "array" || expected == "object"

/-- The per-property checks of validate_against_schema for one field
that is present in the data. -/
def checkRule (field : String) (rules : PropRule) (v : Jv) : Option String :=
  match rules.ptype with
  | some expected =>
    if knownType expected && !jvTypeMatches expected v then
      some ("Field " ++ field ++ " must be type " ++ expected)
    else checkRuleRest field rules v
  | none => checkRuleRest field rules v
where
  /-- The maxLength and minimum checks that follow the type check. -/
  checkRuleRest (field : String) (rules : PropRule) (v : Jv) : Option String :=
    match rules.maxLength, v with
    | some maxLen, .str s =>
      if maxLen ≠ 0 && decide (s.length > maxLen) then
        some ("Field " ++ field ++ " exceeds maxLength " ++ toString maxLen)
      else checkMin field rules v
    | _, _ => checkMin field rules v
  /-- The minimum check.  Python applies it to isinstance(value, (int,
  float)), which includes booleans because bool subclasses int, so a
  boolean compares as 1 or 0 against the minimum. -/
  checkMin (field : String) (rules : PropRule) (v : Jv) : Option String :=
    match rules.minimum, v with
    | some minVal, .num n =>
      if n < minVal then
        some ("Field " ++ field ++ " below minimum " ++ toString minVal)
      else none
    | some minVal, .bool b =>
      if (if b then (1 : Int) else 0) < minVal then
        some ("Field " ++ field ++ " below minimum " ++ toString minVal)
      else none
    | _, _ => none

/-- The required-fields loop of validate_against_schema. -/
def checkRequired (data : JObj) : List String → Option String
  | [] => none
  | field :: rest =>
    if data.hasKey field then checkRequired data rest
    else some ("Missing required field: " ++ field)

/-- The properties loop of validate_against_schema. -/
def checkProperties (data : JObj) : List (String × PropRule) → Option String
  | [] => none
  | (field, rules) :: rest =>
    match data.lookup field with
    | some v =>
      match checkRule field rules v with
      | some err => some err
      | none => checkProperties data rest
    | none => checkProperties data rest

/-- Models validate_against_schema (src/main.py, lines 477 to 509).  The
early return on an empty schema dict coincides with running both loops
over empty collections, so it needs no separate case.  The error details
follow the wording of the source except that the single quote marks
Python puts around field names are omitted; no property observes the
message text. -/
def validate_against_schema (data : JObj) (required : List String)
    (properties : List (String × PropRule)) : Bool × String :=
  match checkRequired data required with
  | some err => (false, err)
  | none =>
    match checkProperties data properties with
    | some err => (false, err)
    | none => (true, "")

/-- First store registered for a worker id; models obtaining that
worker's session. -/
def findStore (st : Sys) (worker_id : String) : Option WorkerStore :=
  st.stores.find? (fun s => s.worker_id == worker_id)

/-- Whether opening a session on the worker succeeds; a worker with no
registered store is unreachable (the connection attempt raises). -/
def storeReachable (st : Sys) (worker_id : String) : Bool :=
  match findStore st worker_id with
  | some s => s.reachable
  | none => false

/-- Replaces the record list of the first store of the given worker. -/
def setStoreRecords (st : Sys) (worker_id : String)
    (recs : List DataRecord) : Sys :=
  { st with
    stores := updFirst (fun s => s.worker_id == worker_id)
      (fun s => { s with records := recs }) st.stores }

/-- The body of POST /api/data/write (DataWriteRequest in src/main.py). -/
structure DataWriteRequest where
  collection : String
  data : JObj
  schema_name : Option String
  tags : List String
deriving DecidableEq, Repr

/-- The body of POST /api/search (SearchRequest in src/main.py). -/
structure SearchRequest where
  query : String
  collection : Option String
  limit : Nat
deriving DecidableEq, Repr

/-- Outcome of write_record: the success payload, or the HTTPException
status code and detail raised by the endpoint. -/
inductive WriteResult where
  | ok (id worker collection : String) (size_bytes : Nat)
  | error (status : Nat) (detail : String)
deriving DecidableEq, Repr

/-- Outcome of get_record: the returned record fields, or the
HTTPException status code and detail. -/
inductive ReadResult where
  | ok (id collection : String) (data : JObj) (tags : List String)
      (size_bytes : Int) (worker : String)
  | error (status : Nat) (detail : String)
deriving DecidableEq, Repr

/-- Outcome of delete_record. -/
inductive DeleteResult where
  | ok (id : String)
  | error (status : Nat) (detail : String)
deriving DecidableEq, Repr

/-- Outcome of an admin worker operation (add, toggle, remove). -/
inductive AdminResult where
  | ok
  | error (status : Nat) (detail : String)
deriving DecidableEq, Repr

/-- The schema-validation gate at the top of write_record: the error
detail of the 422 response, if the named schema exists and rejects the
payload; any other exception in that block is swallowed and the write
proceeds. -/
def schemaViolation (m : MasterState) (req : DataWriteRequest) : Option String :=
  match req.schema_name with
  | none => none
  | some sn =>
    match m.schemas.find? (fun sc => sc.name == sn) with
    | none => none
    | some sc =>
      match validate_against_schema req.data sc.required sc.properties with
      | (true, _) => none
      | (false, err) => some err

/-- Models write_record (src/main.py, lines 3329 to 3388).  The record
id, generated by uuid4 in the source, is passed in as rec_id; the acting
user id comes from the session.  A failed connection to the chosen
worker store surfaces as the generic 500 handler. -/
def write_record (st : Sys) (req : DataWriteRequest) (user_id rec_id : String) :
    Sys × WriteResult :=
  match schemaViolation st.master req with
  | some err => (st, .error 422 ("Schema validation failed: " ++ err))
  | none =>
    match get_available_worker st.master with
    | none =>
      (st, .error 503 "No available worker DB. Add a worker or increase limits.")
    | some worker =>
      let size_b := jsonSizeObj req.data
      match findStore st worker.id with
      | none => (st, .error 500 "worker connection failed")
      | some store =>
        if store.reachable then
          let r0 : DataRecord :=
            { id := rec_id
              collection := req.collection
              data := req.data
              owner_id := some user_id
              schema_name := req.schema_name
              size_bytes := (size_b : Int)
              tags := req.tags }
          let st1 := setStoreRecords st worker.id (store.records ++ [r0])
          let m1 := { st1.master with
            mappings := st1.master.mappings ++
              [{ record_id := rec_id
                 worker_id := worker.id
                 collection := req.collection
                 user_id := some user_id }] }
          let m2 := update_worker_stats m1 worker.id (size_b : Int) 1
          ({ st1 with master := m2 }, .ok rec_id worker.name req.collection size_b)
        else (st, .error 500 "worker connection failed")

/-- Models get_record (src/main.py, lines 3490 to 3520). -/
def get_record (st : Sys) (record_id : String) : ReadResult :=
  match st.master.mappings.find? (fun mp => mp.record_id == record_id) with
  | none => .error 404 "Record not found"
  | some mapping =>
    match get_worker_by_id st.master mapping.worker_id with
    | none => .error 404 "Worker not found"
    | some worker =>
      match findStore st worker.id with
      | none => .error 500 "worker connection failed"
      | some store =>
        if store.reachable then
          match store.records.find? (fun r => r.id == record_id) with
          | none => .error 404 "Record not found in shard"
          | some r => .ok r.id r.collection r.data r.tags r.size_bytes worker.name
        else .error 500 "worker connection failed"

/-- Models delete_record (src/main.py, lines 3522 to 3555).  The worker
side sits in a try block whose failures are swallowed; when the record
is absent the stats update raises NameError on the unbound size variable,
which that except also swallows, so no counters change.  The mapping row
is removed afterwards in every path that found a mapping. -/
def delete_record (st : Sys) (record_id : String) : Sys × DeleteResult :=
  match st.master.mappings.find? (fun mp => mp.record_id == record_id) with
  | none => (st, .error 404 "Record not found")
  | some mapping =>
    let st1 : Sys :=
      match get_worker_by_id st.master mapping.worker_id with
      | none => st
      | some worker =>
        match findStore st worker.id with
        | none => st
        | some store =>
          if store.reachable then
            match store.records.find? (fun r => r.id == record_id) with
            | none => st
            | some r =>
              let st2 := setStoreRecords st worker.id
                (removeFirst (fun q => q.id == record_id) store.records)
              { st2 with
                master := update_worker_stats st2.master worker.id
                  (-r.size_bytes) (-1) }
          else st
    let m3 := { st1.master with
      mappings := removeFirst (fun mp => mp.record_id == record_id)
        st1.master.mappings }
    ({ st1 with master := m3 }, .ok record_id)

/-- Case-insensitive substring test, modelling the cast-to-text ILIKE
with a pattern that wraps the query between percent wildcards (queries
themselves containing wildcards are not modelled). -/
def listIsInfix (needle : List Char) : List Char → Bool
  | [] => needle.isEmpty
  | c :: rest => needle.isPrefixOf (c :: rest) || listIsInfix needle rest

/-- String form of the ILIKE test used by smart_search, lowering both
sides character by character. -/
def ilikeContains (hay query : String) : Bool :=
  listIsInfix (query.toList.map Char.toLower) (hay.toList.map Char.toLower)

/-- The per-record filter of the shard query in smart_search. -/
def recordMatches (req : SearchRequest) (r : DataRecord) : Bool :=
  (match req.collection with
   | none => true
   | some c => r.collection == c) &&
  ilikeContains (dumpObj r.data) req.query

/-- The per-shard query of smart_search: filter then limit, in table
order. -/
def searchShard (req : SearchRequest) (recs : List DataRecord) : List DataRecord :=
  (recs.filter (recordMatches req)).take req.limit

/-- One entry of the results array returned by smart_search. -/
structure SearchHit where
  id : String
  collection : String
  data : JObj
  tags : List String
  worker_id : String
  worker_name : String
deriving DecidableEq, Repr

/-- The result row built for a record found on a worker; a null tags
column comes back as the empty list (r.tags or []). -/
def mkHit (w : WorkerDB) (r : DataRecord) : SearchHit :=
  { id := r.id
    collection := r.collection
    data := r.data
    tags := r.tags
    worker_id := w.id
    worker_name := w.name }

/-- The response of smart_search; time_ms, a wall-clock measurement, is
not modelled. -/
structure SearchSummary where
  results : List SearchHit
  total : Nat
  shards_searched : Nat
  query : String
deriving DecidableEq, Repr

/-- The loop body of smart_search for one active worker: a worker whose
session cannot be opened is skipped by the per-worker except, otherwise
its matches are appended and the shard counter advances. -/
def searchStep (st : Sys) (req : SearchRequest)
    (acc : List SearchHit × Nat) (w : WorkerDB) : List SearchHit × Nat :=
  match findStore st w.id with
  | none => acc
  | some store =>
    if store.reachable then
      (acc.1 ++ (searchShard req store.records).map (mkHit w), acc.2 + 1)
    else acc

/-- Models smart_search (src/main.py, lines 3594 to 3640): iterate the
active workers, skip any whose session fails, gather the per-shard
matches, and count the shards successfully searched.  The final results
are truncated to the request limit while total counts everything
gathered. -/
def smart_search (st : Sys) (req : SearchRequest) : SearchSummary :=
  let active := st.master.workers.filter (fun w => w.is_active)
  let gathered := active.foldl (searchStep st req) ([], 0)
  { results := gathered.1.take req.limit
    total := gathered.1.length
    shards_searched := gathered.2
    query := req.query }

/-- Models toggle_worker (src/main.py, lines 3861 to 3875): sets
is_active to the value in the body, defaulting to the negation of the
current flag when the body omits is_active. -/
def toggle_worker (st : Sys) (worker_id : String) (body_is_active : Option Bool) :
    Sys × AdminResult :=
  match get_worker_by_id st.master worker_id with
  | none => (st, .error 404 "Worker not found")
  | some w =>
    let newActive := body_is_active.getD (!w.is_active)
    ({ st with
       master := { st.master with
         workers := updFirst (fun v => v.id == worker_id)
           (fun v => { v with is_active := newActive }) st.master.workers } },
     .ok)

/-- Models remove_worker (src/main.py, lines 3877 to 3892): deletes the
WorkerDB row outright; mapping rows are not touched. -/
def remove_worker (st : Sys) (worker_id : String) : Sys × AdminResult :=
  match get_worker_by_id st.master worker_id with
  | none => (st, .error 404 "Worker not found")
  | some _ =>
    ({ st with
       master := { st.master with
         workers := removeFirst (fun v => v.id == worker_id) st.master.workers } },
     .ok)

/-- Models add_worker (src/main.py, lines 3831 to 3859): test-connect to
the target (reachable says whether that succeeds), reject duplicate
names, then persist a WorkerDB row with the column defaults and ensure
the worker schema exists.  The fresh uuid primary key is passed in. -/
def add_worker (st : Sys) (name db_url new_id : String) (reachable : Bool) :
    Sys × AdminResult :=
  if !reachable then (st, .error 400 "Cannot connect to DB")
  else if (st.master.workers.find? (fun w => w.name == name)).isSome then
    (st, .error 409 "Worker name already exists")
  else
    let w : WorkerDB :=
      { id := new_id
        name := name
        db_url := db_url
        is_active := true
        is_healthy := true
        size_bytes := 0
        record_count := 0
        latency_ms := 0
        last_ping := none }
    let stores1 :=
      if (st.stores.find? (fun s => s.worker_id == new_id)).isSome then st.stores
      else st.stores ++ [{ worker_id := new_id, reachable := reachable, records := [] }]
    ({ master := { st.master with workers := st.master.workers ++ [w] }
       stores := stores1 },
     .ok)

/-- Environment of one run of the health prober: the measured latency
per worker id and the current utc timestamp. -/
structure PingEnv where
  lat : String → Nat
  now : Nat

/-- One iteration of the worker loop of anti_sleep_ping: on a successful
connection, refresh latency_ms, last_ping and is_healthy on the row
re-queried by id; on failure, set is_healthy to false.  A worker whose
row has disappeared is skipped (updFirst leaves the list unchanged). -/
def pingWorker (env : PingEnv) (st : Sys) (worker_id : String) : Sys :=
  if storeReachable st worker_id then
    { st with
      master := { st.master with
        workers := updFirst (fun v => v.id == worker_id)
          (fun v =>
            { v with
              latency_ms := env.lat worker_id
              last_ping := some env.now
              is_healthy := true }) st.master.workers } }
  else
    { st with
      master := { st.master with
        workers := updFirst (fun v => v.id == worker_id)
          (fun v => { v with is_healthy := false }) st.master.workers } }

/-- Models the worker-probing part of anti_sleep_ping (src/main.py,
lines 515 to 555): gated on the anti_sleep_enabled config value, it
snapshots the active workers and probes each in turn.  The trailing
keep-alive HTTP GETs touch no state and are not modelled. -/
def anti_sleep_ping (env : PingEnv) (st : Sys) : Sys :=
  if st.master.anti_sleep_enabled ≠ "true" then st
  else
    let snapshot := st.master.workers.filter (fun w => w.is_active)
    snapshot.foldl (fun acc w => pingWorker env acc w.id) st

/-- One externally triggered router operation, for stating properties
that hold after every sequence of operations. -/
inductive RouterOp where
  | write (req : DataWriteRequest) (user_id rec_id : String)
  | del (record_id : String)
  | toggle (worker_id : String) (body_is_active : Option Bool)
  | remove (worker_id : String)
  | add (name db_url new_id : String) (reachable : Bool)
  | ping (env : PingEnv)

/-- State transition of one router operation (responses discarded). -/
def applyOp (st : Sys) : RouterOp → Sys
  | .write req uid rid => (write_record st req uid rid).1
  | .del rid => (delete_record st rid).1
  | .toggle wid b => (toggle_worker st wid b).1
  | .remove wid => (remove_worker st wid).1
  | .add name url nid r => (add_worker st name url nid r).1
  | .ping env => anti_sleep_ping env st

/-- State after a sequence of router operations. -/
def applyOps (st : Sys) (ops : List RouterOp) : Sys :=
  ops.foldl applyOp st

/-! Lemmas about the row-level list operations. -/

theorem updFirst_find?_eq (p : α → Bool) (f : α → α) (l : List α)
    (hf : ∀ x, p x = true → p (f x) = true) :
    (updFirst p f l).find? p = (l.find? p).map f := by
  induction l with
  | nil => rfl
  | cons x xs ih =>
    by_cases hx : p x = true
    · simp [updFirst, hx, List.find?_cons, hf x hx]
    · simp only [Bool.not_eq_true] at hx
      simp [updFirst, hx, List.find?_cons, ih]

theorem updFirst_find?_ne (p q : α → Bool) (f : α → α) (l : List α)
    (h : ∀ x, p x = true → q x = false ∧ q (f x) = false) :
    (updFirst p f l).find? q = l.find? q := by
  induction l with
  | nil => rfl
  | cons x xs ih =>
    by_cases hx : p x = true
    · obtain ⟨h1, h2⟩ := h x hx
      simp [updFirst, hx, List.find?_cons, h1, h2]
    · simp only [Bool.not_eq_true] at hx
      by_cases hq : q x = true
      · simp [updFirst, hx, List.find?_cons, hq]
      · simp only [Bool.not_eq_true] at hq
        simp [updFirst, hx, List.find?_cons, hq, ih]

theorem updFirst_length (p : α → Bool) (f : α → α) (l : List α) :
    (updFirst p f l).length = l.length := by
  induction l with
  | nil => rfl
  | cons x xs ih =>
    by_cases hx : p x = true
    · simp [updFirst, hx]
    · simp only [Bool.not_eq_true] at hx
      simp [updFirst, hx, ih]

theorem removeFirst_find?_none (p : α → Bool) (l : List α)
    (h : l.countP p ≤ 1) : (removeFirst p l).find? p = none := by
  induction l with
  | nil => rfl
  | cons x xs ih =>
    by_cases hx : p x = true
    · have hc : (x :: xs).countP p = xs.countP p + 1 := by
        simp [List.countP_cons, hx]
      rw [hc] at h
      have hz : xs.countP p = 0 := by omega
      have hnone : xs.find? p = none := by
        rw [List.find?_eq_none]
        intro a ha
        have := (List.countP_eq_zero).mp hz a ha
        simpa using this
      simpa [removeFirst, hx] using hnone
    · simp only [Bool.not_eq_true] at hx
      have hc : (x :: xs).countP p = xs.countP p := by
        simp [List.countP_cons, hx]
      rw [hc] at h
      simp [removeFirst, hx, List.find?_cons, ih h]

theorem removeFirst_find?_ne (p q : α → Bool) (l : List α)
    (h : ∀ x, p x = true → q x = false) :
    (removeFirst p l).find? q = l.find? q := by
  induction l with
  | nil => rfl
  | cons x xs ih =>
    by_cases hx : p x = true
    · simp [removeFirst, hx, List.find?_cons, h x hx]
    · simp only [Bool.not_eq_true] at hx
      by_cases hq : q x = true
      · simp [removeFirst, hx, List.find?_cons, hq]
      · simp only [Bool.not_eq_true] at hq
        simp [removeFirst, hx, List.find?_cons, hq, ih]

theorem countP_key_le_one_of_nodup [BEq β] [LawfulBEq β] (k : α → β)
    (l : List α) (h : (l.map k).Nodup) (v : β) :
    l.countP (fun x => k x == v) ≤ 1 := by
  induction l with
  | nil => simp
  | cons x xs ih =>
    rw [List.map_cons, List.nodup_cons] at h
    obtain ⟨hx, hxs⟩ := h
    by_cases hv : (k x == v) = true
    · have hkx : k x = v := by simpa using hv
      have hz : xs.countP (fun y => k y == v) = 0 := by
        rw [List.countP_eq_zero]
        intro a ha hcon
        have : k a = v := by simpa using hcon
        exact hx (by rw [hkx, ← this]; exact List.mem_map_of_mem k ha)
      rw [List.countP_cons, hz]
      simp [hv]
    · simp only [Bool.not_eq_true] at hv
      rw [List.countP_cons]
      simp only [hv]
      simpa using ih hxs

theorem find?_key_of_mem_nodup [BEq β] [LawfulBEq β] (k : α → β)
    (l : List α) (a : α) (hmem : a ∈ l) (h : (l.map k).Nodup) :
    l.find? (fun x => k x == k a) = some a := by
  induction l with
  | nil => cases hmem
  | cons x xs ih =>
    rw [List.map_cons, List.nodup_cons] at h
    obtain ⟨hx, hxs⟩ := h
    rcases List.mem_cons.mp hmem with rfl | hmem2
    · simp [List.find?_cons]
    · have hne : (k x == k a) = false := by
        rw [beq_eq_false_iff_ne]
        intro hcon
        exact hx (by rw [hcon]; exact List.mem_map_of_mem k hmem2)
      simp [List.find?_cons, hne, ih hmem2 hxs]

theorem minBySize_mem (l : List WorkerDB) (w : WorkerDB)
    (h : minBySize l = some w) : w ∈ l := by
  induction l generalizing w with
  | nil => cases h
  | cons x xs ih =>
    rw [minBySize] at h
    cases hm : minBySize xs with
    | none =>
      rw [hm] at h
      exact (Option.some.inj h) ▸ List.mem_cons_self x xs
    | some m =>
      rw [hm] at h
      dsimp only at h
      by_cases hle : x.size_bytes ≤ m.size_bytes
      · rw [if_pos hle] at h
        exact (Option.some.inj h) ▸ List.mem_cons_self x xs
      · rw [if_neg hle] at h
        exact List.mem_cons_of_mem x ((Option.some.inj h) ▸ ih m hm)

theorem minBySize_none (l : List WorkerDB) (h : minBySize l = none) :
    l = [] := by
  cases l with
  | nil => rfl
  | cons x xs =>
    rw [minBySize] at h
    cases hm : minBySize xs with
    | none => rw [hm] at h; cases h
    | some m =>
      rw [hm] at h
      dsimp only at h
      by_cases hle : x.size_bytes ≤ m.size_bytes
      · rw [if_pos hle] at h; cases h
      · rw [if_neg hle] at h; cases h

theorem minBySize_le (l : List WorkerDB) (w : WorkerDB)
    (h : minBySize l = some w) :
    ∀ v ∈ l, w.size_bytes ≤ v.size_bytes := by
  induction l generalizing w with
  | nil => cases h
  | cons x xs ih =>
    intro v hv
    rw [minBySize] at h
    cases hm : minBySize xs with
    | none =>
      rw [hm] at h
      have hx := Option.some.inj h
      have hnil := minBySize_none xs hm
      subst hnil
      rcases List.mem_cons.mp hv with rfl | hv2
      · rw [← hx]
      · cases hv2
    | some m =>
      rw [hm] at h
      dsimp only at h
      by_cases hle : x.size_bytes ≤ m.size_bytes
      · rw [if_pos hle] at h
        have hx := Option.some.inj h
        subst hx
        rcases List.mem_cons.mp hv with rfl | hv2
        · exact le_refl _
        · exact le_trans hle (ih m hm v hv2)
      · rw [if_neg hle] at h
        have hx := Option.some.inj h
        subst hx
        rcases List.mem_cons.mp hv with rfl | hv2
        · exact le_of_lt (lt_of_not_le hle)
        · exact ih m hm v hv2

/-! Claim C10: non-negativity of the usage counters. -/

/-- C10: every usage-counter update clamps at zero, so after any update
of a worker through update_worker_stats, with any positive or negative
byte and record deltas, the stored size_bytes and record_count of that
worker are at least 0. -/
theorem usage_counters_nonneg (m : MasterState) (worker_id : String)
    (delta_bytes delta_records : Int) (w : WorkerDB)
    (h : get_worker_by_id (update_worker_stats m worker_id delta_bytes delta_records)
        worker_id = some w) :
    0 ≤ w.size_bytes ∧ 0 ≤ w.record_count := by
  unfold get_worker_by_id update_worker_stats at h
  rw [updFirst_find?_eq] at h
  · cases hf : m.workers.find? (fun v => v.id == worker_id) with
    | none => rw [hf] at h; cases h
    | some w0 =>
      rw [hf] at h
      have hw := Option.some.inj h
      rw [← hw]
      exact ⟨le_max_left 0 _, le_max_left 0 _⟩
  · intro x hx
    simpa using hx

/-- Sample master state for the C10 witness: one worker holding 5 bytes
and 2 records. -/
def c10Master : MasterState :=
  { workers := [{ id := "w1", name := "alpha", db_url := "postgresql://h/a",
                  is_active := true, is_healthy := true, size_bytes := 5,
                  record_count := 2, latency_ms := 0, last_ping := none }]
    mappings := [], schemas := [], shard_limit_mb := 950
    anti_sleep_enabled := "true" }

/-- The clamped row produced by a delete whose deltas exceed the stored
counters of c10Master. -/
def c10Row : WorkerDB :=
  { id := "w1", name := "alpha", db_url := "postgresql://h/a",
    is_active := true, is_healthy := true, size_bytes := 0,
    record_count := 0, latency_ms := 0, last_ping := none }

/-- Witness for C10 at a delete-style update whose deltas exceed the
stored values. -/
theorem usage_counters_nonneg_witness :
    get_worker_by_id (update_worker_stats c10Master "w1" (-10) (-5)) "w1" =
        some c10Row ∧
    (0 ≤ c10Row.size_bytes ∧ 0 ≤ c10Row.record_count) :=
  ⟨by decide, usage_counters_nonneg c10Master "w1" (-10) (-5) c10Row (by decide)⟩

/-! Claim C1: writer uniqueness.  The worker_dbs table has no
isCurrentWriter column; the write target is recomputed on demand by
get_available_worker, so the node currently holding the writer role in
any state is the value of that function, and it is unique by
construction and always an active, healthy node under the soft limit. -/

/-- C1: after every sequence of router operations, at most one worker is
the current write target: any two workers returned by
get_available_worker on the reached state are equal, and the target is
an active, healthy worker strictly under the soft limit. -/
theorem writer_unique_after_ops (st0 : Sys) (ops : List RouterOp)
    (w1 w2 : WorkerDB)
    (h1 : get_available_worker (applyOps st0 ops).master = some w1)
    (h2 : get_available_worker (applyOps st0 ops).master = some w2) :
    w1 = w2 ∧ w1.is_active = true ∧ w1.is_healthy = true ∧
      w1.size_bytes < shardLimitBytes (applyOps st0 ops).master := by
  have he : w1 = w2 := by
    rw [h1] at h2
    exact Option.some.inj h2
  have hmem := minBySize_mem _ _ h1
  rw [List.mem_filter] at hmem
  obtain ⟨_, helig⟩ := hmem
  unfold eligibleWorker at helig
  simp only [Bool.and_eq_true, decide_eq_true_eq] at helig
  exact ⟨he, helig.1.1, helig.1.2, helig.2⟩

/-- Empty initial state for the C1 witness. -/
def c1Init : Sys :=
  { master := { workers := [], mappings := [], schemas := [],
                shard_limit_mb := 950, anti_sleep_enabled := "true" }
    stores := [] }

/-- Worker row created by registering a node into c1Init. -/
def c1Worker : WorkerDB :=
  { id := "id1", name := "w1", db_url := "postgresql://h/w1",
    is_active := true, is_healthy := true, size_bytes := 0,
    record_count := 0, latency_ms := 0, last_ping := none }

/-- Witness for C1 after one node registration. -/
theorem writer_unique_after_ops_witness :
    get_available_worker
        (applyOps c1Init [RouterOp.add "w1" "postgresql://h/w1" "id1" true]).master =
      some c1Worker ∧
    (c1Worker = c1Worker ∧ c1Worker.is_active = true ∧
      c1Worker.is_healthy = true ∧
      c1Worker.size_bytes <
        shardLimitBytes
          (applyOps c1Init [RouterOp.add "w1" "postgresql://h/w1" "id1" true]).master) :=
  ⟨by decide,
   writer_unique_after_ops c1Init [RouterOp.add "w1" "postgresql://h/w1" "id1" true]
     c1Worker c1Worker (by decide) (by decide)⟩

/-! Claim C6: which worker the router selects. -/

/-- C6 (amended): get_available_worker selects, among the workers that
are active, healthy and strictly under the soft limit, one of least
size_bytes; and it returns none exactly when no worker qualifies. -/
theorem writer_selection_least_used (m : MasterState) :
    (∀ w, get_available_worker m = some w →
        w ∈ m.workers ∧ eligibleWorker (shardLimitBytes m) w = true ∧
        ∀ v ∈ m.workers, eligibleWorker (shardLimitBytes m) v = true →
          w.size_bytes ≤ v.size_bytes) ∧
    (get_available_worker m = none →
        ∀ v ∈ m.workers, eligibleWorker (shardLimitBytes m) v = false) := by
  constructor
  · intro w h
    have hmem := minBySize_mem _ _ h
    have hle := minBySize_le _ _ h
    rw [List.mem_filter] at hmem
    refine ⟨hmem.1, hmem.2, ?_⟩
    intro v hv hel
    exact hle v (List.mem_filter.mpr ⟨hv, hel⟩)
  · intro h v hv
    unfold get_available_worker at h
    have hnil := minBySize_none _ h
    rw [List.filter_eq_nil_iff] at hnil
    have := hnil v hv
    simpa using this

/-- Ascending order on worker ids, comparing code points, used only to
express the selection order the spec describes. -/
def charListLe : List Char → List Char → Bool
  | [], _ => true
  | _ :: _, [] => false
  | a :: as, b :: bs =>
    if a.toNat < b.toNat then true
    else if b.toNat < a.toNat then false
    else charListLe as bs

/-- First worker of the list in ascending id order. -/
def minById : List WorkerDB → Option WorkerDB
  | [] => none
  | w :: ws =>
    match minById ws with
    | none => some w
    | some m => if charListLe w.id.toList m.id.toList then some w else some m

/-- Modelled from the spec (not from the source, which orders by size):
scan the active nodes in a stable order, ascending id, and select the
first with usedBytes strictly under the soft limit. -/
def specSelectWriter (m : MasterState) : Option WorkerDB :=
  minById (m.workers.filter
    (fun w => w.is_active && decide (w.size_bytes < shardLimitBytes m)))

/-- Master state refuting the claimed ascending-id scan: worker a (id
"a", 100 bytes used) precedes worker b (id "b", 0 bytes used); both are
active, healthy and far under the limit. -/
def c6Master : MasterState :=
  { workers :=
      [{ id := "a", name := "wa", db_url := "postgresql://h/a",
         is_active := true, is_healthy := true, size_bytes := 100,
         record_count := 1, latency_ms := 0, last_ping := none },
       { id := "b", name := "wb", db_url := "postgresql://h/b",
         is_active := true, is_healthy := true, size_bytes := 0,
         record_count := 0, latency_ms := 0, last_ping := none }]
    mappings := [], schemas := [], shard_limit_mb := 950
    anti_sleep_enabled := "true" }

/-- Counterexample to C6 as stated: the code picks the least-used worker
b, not the ascending-id first worker a. -/
theorem writer_selection_counterexample :
    get_available_worker c6Master ≠ specSelectWriter c6Master ∧
    (get_available_worker c6Master).map (fun w => w.id) = some "b" ∧
    (specSelectWriter c6Master).map (fun w => w.id) = some "a" := by
  refine ⟨?_, by decide, by decide⟩
  decide

/-- Eligible worker of least size in c6Master, for the C6 witness. -/
def c6Least : WorkerDB :=
  { id := "b", name := "wb", db_url := "postgresql://h/b",
    is_active := true, is_healthy := true, size_bytes := 0,
    record_count := 0, latency_ms := 0, last_ping := none }

/-- Witness for the amended C6 on c6Master. -/
theorem writer_selection_least_used_witness :
    get_available_worker c6Master = some c6Least ∧
    (c6Least ∈ c6Master.workers ∧
      eligibleWorker (shardLimitBytes c6Master) c6Least = true ∧
      ∀ v ∈ c6Master.workers,
        eligibleWorker (shardLimitBytes c6Master) v = true →
          c6Least.size_bytes ≤ v.size_bytes) :=
  ⟨by decide, (writer_selection_least_used c6Master).1 c6Least (by decide)⟩

/-! Claim C3: capacity exhaustion. -/

/-- C3: when every active worker is at or above the soft limit, a write
whose optional schema gate passes returns the 503 no-available-worker
error and the state is unchanged: no mapping row is created and no
usage counter moves. -/
theorem write_exhaustion (st : Sys) (req : DataWriteRequest)
    (user_id rec_id : String)
    (hschema : schemaViolation st.master req = none)
    (hcap : ∀ w ∈ st.master.workers, w.is_active = true →
        shardLimitBytes st.master ≤ w.size_bytes) :
    write_record st req user_id rec_id =
      (st, .error 503 "No available worker DB. Add a worker or increase limits.") := by
  have hnone : get_available_worker st.master = none := by
    unfold get_available_worker
    have hfil : st.master.workers.filter (eligibleWorker (shardLimitBytes st.master)) = [] := by
      rw [List.filter_eq_nil_iff]
      intro w hw hel
      unfold eligibleWorker at hel
      simp only [Bool.and_eq_true, decide_eq_true_eq] at hel
      obtain ⟨⟨ha, _⟩, hlt⟩ := hel
      exact absurd (hcap w hw ha) (not_le.mpr hlt)
    rw [hfil]
    rfl
  unfold write_record
  rw [hschema, hnone]

/-- State for the C3 witness: both workers active and at or over the
950 MB soft limit. -/
def c3State : Sys :=
  { master :=
      { workers :=
          [{ id := "w1", name := "full1", db_url := "postgresql://h/f1",
             is_active := true, is_healthy := true,
             size_bytes := 996147200, record_count := 10,
             latency_ms := 0, last_ping := none },
           { id := "w2", name := "full2", db_url := "postgresql://h/f2",
             is_active := true, is_healthy := true,
             size_bytes := 1000000000, record_count := 20,
             latency_ms := 0, last_ping := none }]
        mappings := [], schemas := [], shard_limit_mb := 950
        anti_sleep_enabled := "true" }
    stores := [{ worker_id := "w1", reachable := true, records := [] },
               { worker_id := "w2", reachable := true, records := [] }] }

/-- Request for the C3 witness. -/
def c3Req : DataWriteRequest :=
  { collection := "default", data := .cons "a" (.num 1) .nil,
    schema_name := none, tags := [] }

/-- Witness for C3 on c3State. -/
theorem write_exhaustion_witness :
    schemaViolation c3State.master c3Req = none ∧
    (∀ w ∈ c3State.master.workers, w.is_active = true →
        shardLimitBytes c3State.master ≤ w.size_bytes) ∧
    write_record c3State c3Req "u1" "r1" =
      (c3State, .error 503 "No available worker DB. Add a worker or increase limits.") :=
  ⟨by decide, by decide, write_exhaustion c3State c3Req "u1" "r1" (by decide) (by decide)⟩

/-! Claim C8: node removal. -/

theorem mem_updFirst (p : α → Bool) (f : α → α) (l : List α) (v : α)
    (h : v ∈ updFirst p f l) : v ∈ l ∨ ∃ v0 ∈ l, v = f v0 := by
  induction l with
  | nil => cases h
  | cons x xs ih =>
    by_cases hx : p x = true
    · rw [updFirst, if_pos hx] at h
      rcases List.mem_cons.mp h with rfl | h2
      · exact Or.inr ⟨x, List.mem_cons_self x xs, rfl⟩
      · exact Or.inl (List.mem_cons_of_mem x h2)
    · rw [updFirst, if_neg hx] at h
      rcases List.mem_cons.mp h with rfl | h2
      · exact Or.inl (List.mem_cons_self v xs)
      · rcases ih h2 with h3 | ⟨v0, hv0, hv⟩
        · exact Or.inl (List.mem_cons_of_mem x h3)
        · exact Or.inr ⟨v0, List.mem_cons_of_mem x hv0, hv⟩

/-- State refuting C8: one registered worker and one mapping row that
points at it. -/
def c8State : Sys :=
  { master :=
      { workers := [{ id := "w1", name := "solo", db_url := "postgresql://h/s",
                      is_active := true, is_healthy := true, size_bytes := 10,
                      record_count := 1, latency_ms := 0, last_ping := none }]
        mappings := [{ record_id := "r1", worker_id := "w1",
                       collection := "default", user_id := some "u1" }]
        schemas := [], shard_limit_mb := 950, anti_sleep_enabled := "true" }
    stores := [{ worker_id := "w1", reachable := true,
                 records := [{ id := "r1", collection := "default",
                               data := .cons "a" (.num 1) .nil,
                               owner_id := some "u1", schema_name := none,
                               size_bytes := 8, tags := [] }] }] }

/-- Counterexample to C8 as stated: remove_worker hard-deletes the
WorkerDB row (it does not merely clear is_active), leaving the surviving
mapping row pointing at a worker id that no longer exists. -/
theorem node_removal_counterexample :
    (remove_worker c8State "w1").2 = .ok ∧
    get_worker_by_id (remove_worker c8State "w1").1.master "w1" = none ∧
    (remove_worker c8State "w1").1.master.mappings.countP
        (fun mp => mp.worker_id == "w1") = 1 := by
  refine ⟨by decide, by decide, by decide⟩

/-- C8 (amended): toggle_worker is the soft removal: it succeeds, keeps
every worker row (same row count) and changes nothing but is_active on
any row; remove_worker however hard-deletes the WorkerDB row - it
leaves the mapping table untouched, so mappings that referenced the
removed id dangle. -/
theorem node_removal_soft_vs_hard (st : Sys) (wid : String) (b : Option Bool)
    (w : WorkerDB) (hw : get_worker_by_id st.master wid = some w)
    (hnodup : (st.master.workers.map (fun v => v.id)).Nodup) :
    ((toggle_worker st wid b).2 = .ok ∧
     (toggle_worker st wid b).1.master.workers.length =
       st.master.workers.length ∧
     (toggle_worker st wid b).1.master.mappings = st.master.mappings ∧
     ∀ v ∈ (toggle_worker st wid b).1.master.workers,
       ∃ v0 ∈ st.master.workers,
         v.id = v0.id ∧ v.name = v0.name ∧ v.db_url = v0.db_url ∧
         v.size_bytes = v0.size_bytes ∧ v.record_count = v0.record_count ∧
         v.is_healthy = v0.is_healthy ∧ v.latency_ms = v0.latency_ms ∧
         v.last_ping = v0.last_ping) ∧
    ((remove_worker st wid).2 = .ok ∧
     (remove_worker st wid).1.master.mappings = st.master.mappings ∧
     get_worker_by_id (remove_worker st wid).1.master wid = none) := by
  constructor
  · unfold toggle_worker
    rw [hw]
    refine ⟨rfl, updFirst_length _ _ _, rfl, ?_⟩
    intro v hv
    rcases mem_updFirst _ _ _ v hv with h2 | ⟨v0, hv0, hv⟩
    · exact ⟨v, h2, rfl, rfl, rfl, rfl, rfl, rfl, rfl, rfl⟩
    · exact ⟨v0, hv0, by rw [hv], by rw [hv], by rw [hv], by rw [hv],
        by rw [hv], by rw [hv], by rw [hv], by rw [hv]⟩
  · unfold remove_worker
    rw [hw]
    refine ⟨rfl, rfl, ?_⟩
    unfold get_worker_by_id
    exact removeFirst_find?_none _ _
      (countP_key_le_one_of_nodup (fun v : WorkerDB => v.id)
        st.master.workers hnodup wid)

/-- The single worker row of c8State. -/
def c8Worker : WorkerDB :=
  { id := "w1", name := "solo", db_url := "postgresql://h/s",
    is_active := true, is_healthy := true, size_bytes := 10,
    record_count := 1, latency_ms := 0, last_ping := none }

/-- Witness for the amended C8 on c8State. -/
theorem node_removal_soft_vs_hard_witness :
    get_worker_by_id c8State.master "w1" = some c8Worker ∧
    (((toggle_worker c8State "w1" (some false)).2 = .ok ∧
      (toggle_worker c8State "w1" (some false)).1.master.workers.length =
        c8State.master.workers.length ∧
      (toggle_worker c8State "w1" (some false)).1.master.mappings =
        c8State.master.mappings ∧
      ∀ v ∈ (toggle_worker c8State "w1" (some false)).1.master.workers,
        ∃ v0 ∈ c8State.master.workers,
          v.id = v0.id ∧ v.name = v0.name ∧ v.db_url = v0.db_url ∧
          v.size_bytes = v0.size_bytes ∧ v.record_count = v0.record_count ∧
          v.is_healthy = v0.is_healthy ∧ v.latency_ms = v0.latency_ms ∧
          v.last_ping = v0.last_ping) ∧
     ((remove_worker c8State "w1").2 = .ok ∧
      (remove_worker c8State "w1").1.master.mappings = c8State.master.mappings ∧
      get_worker_by_id (remove_worker c8State "w1").1.master "w1" = none)) :=
  ⟨by decide,
   node_removal_soft_vs_hard c8State "w1" (some false) c8Worker (by decide)
     (by decide)⟩

/-! Claim C9: effect of the health probe. -/

theorem pingWorker_stores (env : PingEnv) (st : Sys) (wid : String) :
    (pingWorker env st wid).stores = st.stores := by
  unfold pingWorker
  split <;> rfl

theorem pingWorker_find_ne (env : PingEnv) (st : Sys) (pid wid : String)
    (h : pid ≠ wid) :
    get_worker_by_id (pingWorker env st pid).master wid =
      get_worker_by_id st.master wid := by
  unfold pingWorker get_worker_by_id
  split
  · exact updFirst_find?_ne _ _ _ _ (fun x hx => by
      have hxe : x.id = pid := by simpa using hx
      refine ⟨?_, ?_⟩ <;> simp [hxe, beq_eq_false_iff_ne, h])
  · exact updFirst_find?_ne _ _ _ _ (fun x hx => by
      have hxe : x.id = pid := by simpa using hx
      refine ⟨?_, ?_⟩ <;> simp [hxe, beq_eq_false_iff_ne, h])

theorem foldPing_stores (env : PingEnv) (l : List WorkerDB) (st : Sys) :
    (l.foldl (fun acc v => pingWorker env acc v.id) st).stores = st.stores := by
  induction l generalizing st with
  | nil => rfl
  | cons x xs ih => rw [List.foldl_cons, ih, pingWorker_stores]

theorem foldPing_find_ne (env : PingEnv) (l : List WorkerDB) (st : Sys)
    (wid : String) (h : ∀ v ∈ l, v.id ≠ wid) :
    get_worker_by_id
        (l.foldl (fun acc v => pingWorker env acc v.id) st).master wid =
      get_worker_by_id st.master wid := by
  induction l generalizing st with
  | nil => rfl
  | cons x xs ih =>
    rw [List.foldl_cons, ih _ (fun v hv => h v (List.mem_cons_of_mem x hv)),
        pingWorker_find_ne env st x.id wid (h x (List.mem_cons_self x xs))]

theorem storeReachable_eq_of_stores (a b : Sys) (wid : String)
    (h : a.stores = b.stores) : storeReachable a wid = storeReachable b wid := by
  unfold storeReachable findStore
  rw [h]

theorem pingWorker_find_self (env : PingEnv) (st : Sys) (wid : String) :
    get_worker_by_id (pingWorker env st wid).master wid =
      (get_worker_by_id st.master wid).map
        (fun v =>
          if storeReachable st wid then
            { v with latency_ms := env.lat wid, last_ping := some env.now,
                     is_healthy := true }
          else { v with is_healthy := false }) := by
  unfold pingWorker get_worker_by_id
  by_cases hr : storeReachable st wid = true
  · rw [if_pos hr]
    dsimp only
    rw [updFirst_find?_eq _ _ _ (fun x hx => by simpa using hx)]
    cases st.master.workers.find? (fun w => w.id == wid) <;> simp [hr]
  · rw [if_neg hr]
    dsimp only
    rw [updFirst_find?_eq _ _ _ (fun x hx => by simpa using hx)]
    cases st.master.workers.find? (fun w => w.id == wid) <;> simp [hr]

/-- C9 (amended): for every active worker, one prober run (with the
anti-sleep flag on) re-queries the row by id and, when the probe
connection succeeds, sets is_healthy to true, stores the measured
latency and refreshes last_ping - leaving size_bytes and record_count
untouched; when the probe fails it only sets is_healthy to false. -/
theorem health_probe_update (st : Sys) (env : PingEnv) (w : WorkerDB)
    (hen : st.master.anti_sleep_enabled = "true")
    (hmem : w ∈ st.master.workers) (hact : w.is_active = true)
    (hnodup : (st.master.workers.map (fun v => v.id)).Nodup) :
    get_worker_by_id (anti_sleep_ping env st).master w.id =
      some (if storeReachable st w.id then
              { w with latency_ms := env.lat w.id, last_ping := some env.now,
                       is_healthy := true }
            else { w with is_healthy := false }) := by
  unfold anti_sleep_ping
  rw [if_neg (by simp [hen])]
  have hmem2 : w ∈ st.master.workers.filter (fun v => v.is_active) :=
    List.mem_filter.mpr ⟨hmem, hact⟩
  have hnodup2 :
      ((st.master.workers.filter (fun v => v.is_active)).map
        (fun v => v.id)).Nodup :=
    List.Nodup.sublist ((List.filter_sublist _).map _) hnodup
  obtain ⟨l1, l2, hsplit⟩ := List.append_of_mem hmem2
  rw [hsplit]
  rw [hsplit, List.map_append, List.nodup_append] at hnodup2
  obtain ⟨hn1, hn2, hdisj⟩ := hnodup2
  have hl2 : ∀ v ∈ l2, v.id ≠ w.id := by
    intro v hv hcon
    rw [List.map_cons, List.nodup_cons] at hn2
    have hB : w.id ∈ l2.map (fun q => q.id) := by
      rw [← hcon]
      exact List.mem_map_of_mem _ hv
    exact hn2.1 hB
  have hl1 : ∀ v ∈ l1, v.id ≠ w.id := by
    intro v hv hcon
    have hA : v.id ∈ l1.map (fun q => q.id) := List.mem_map_of_mem _ hv
    have hB : v.id ∈ (w :: l2).map (fun q => q.id) := by
      rw [List.map_cons, hcon]
      exact List.mem_cons_self _ _
    exact hdisj hA hB
  rw [List.foldl_append, List.foldl_cons]
  rw [foldPing_find_ne env l2 _ _ hl2]
  rw [pingWorker_find_self]
  have hstores :
      (l1.foldl (fun acc v => pingWorker env acc v.id) st).stores = st.stores :=
    foldPing_stores env l1 st
  rw [storeReachable_eq_of_stores _ st _ hstores]
  rw [foldPing_find_ne env l1 st _ hl1]
  have hfind : get_worker_by_id st.master w.id = some w := by
    unfold get_worker_by_id
    exact find?_key_of_mem_nodup (fun v : WorkerDB => v.id)
      st.master.workers w hmem hnodup
  rw [hfind]
  rfl

/-- Worker row of the C9 sample state: 5 bytes on the books. -/
def c9Worker : WorkerDB :=
  { id := "w1", name := "drifty", db_url := "postgresql://h/d",
    is_active := true, is_healthy := true, size_bytes := 5,
    record_count := 1, latency_ms := 0, last_ping := none }

/-- C9 sample state: the reachable store actually holds 999 bytes while
the master row says 5, exhibiting counter drift. -/
def c9State : Sys :=
  { master :=
      { workers := [c9Worker]
        mappings := [{ record_id := "r9", worker_id := "w1",
                       collection := "default", user_id := some "u1" }]
        schemas := [], shard_limit_mb := 950, anti_sleep_enabled := "true" }
    stores := [{ worker_id := "w1", reachable := true,
                 records := [{ id := "r9", collection := "default",
                               data := .cons "big" (.num 7) .nil,
                               owner_id := some "u1", schema_name := none,
                               size_bytes := 999, tags := [] }] }] }

/-- Probe environment for the C9 theorems. -/
def c9Env : PingEnv := { lat := fun _ => 42, now := 1700000000 }

/-- Modelled from the spec: the authoritative size query run on the node
itself, whose result a successful probe is said to copy into usedBytes.
The prober in src/main.py runs no such query, so this definition follows
the words of the spec: the total recorded size of the records the node
holds. -/
def specAuthoritativeSize (st : Sys) (wid : String) : Int :=
  match findStore st wid with
  | none => 0
  | some s => (s.records.map (fun r => r.size_bytes)).sum

/-- Counterexample to C9 as stated: the probe of the reachable worker
succeeds (is_healthy ends true, last_ping refreshed) yet size_bytes
stays at the drifted value 5 instead of being refreshed to the
authoritative 999. -/
theorem health_probe_counterexample :
    specAuthoritativeSize c9State "w1" = 999 ∧
    ((anti_sleep_ping c9Env c9State).master.workers.find?
        (fun v => v.id == "w1")).map
        (fun v => (v.size_bytes, v.is_healthy, v.last_ping)) =
      some (5, true, some 1700000000) ∧
    (5 : Int) ≠ 999 := by
  refine ⟨by decide, by decide, by decide⟩

/-- Witness for the amended C9 on c9State. -/
theorem health_probe_update_witness :
    c9State.master.anti_sleep_enabled = "true" ∧
    c9Worker ∈ c9State.master.workers ∧
    c9Worker.is_active = true ∧
    (c9State.master.workers.map (fun v => v.id)).Nodup ∧
    get_worker_by_id (anti_sleep_ping c9Env c9State).master c9Worker.id =
      some (if storeReachable c9State c9Worker.id then
              { c9Worker with latency_ms := c9Env.lat c9Worker.id,
                              last_ping := some c9Env.now, is_healthy := true }
            else { c9Worker with is_healthy := false }) :=
  ⟨rfl, by decide, by decide, by decide,
   health_probe_update c9State c9Env c9Worker rfl (by decide) (by decide)
     (by decide)⟩

/-! Claim C7: scatter search resilience. -/

/-- The active workers whose stores answer during a scatter search. -/
def reachableActive (st : Sys) : List WorkerDB :=
  (st.master.workers.filter (fun w => w.is_active)).filter
    (fun w => storeReachable st w.id)

/-- The result rows one worker contributes to a scatter search. -/
def shardHits (st : Sys) (req : SearchRequest) (w : WorkerDB) : List SearchHit :=
  match findStore st w.id with
  | none => []
  | some store => (searchShard req store.records).map (mkHit w)

/-- Everything a scatter search gathers, before the final truncation. -/
def gatherAll (st : Sys) (req : SearchRequest) : List SearchHit :=
  (reachableActive st).flatMap (shardHits st req)

theorem searchStep_eq (st : Sys) (req : SearchRequest)
    (acc : List SearchHit × Nat) (w : WorkerDB) :
    searchStep st req acc w =
      if storeReachable st w.id then (acc.1 ++ shardHits st req w, acc.2 + 1)
      else acc := by
  unfold searchStep shardHits storeReachable
  cases findStore st w.id with
  | none => simp
  | some s =>
    by_cases hr : s.reachable = true
    · simp [hr]
    · simp only [Bool.not_eq_true] at hr
      simp [hr]

theorem foldSearch_eq (st : Sys) (req : SearchRequest) (l : List WorkerDB)
    (acc : List SearchHit × Nat) :
    l.foldl (searchStep st req) acc =
      (acc.1 ++ (l.filter (fun w => storeReachable st w.id)).flatMap
        (shardHits st req),
       acc.2 + l.countP (fun w => storeReachable st w.id)) := by
  induction l generalizing acc with
  | nil => simp
  | cons x xs ih =>
    rw [List.foldl_cons, searchStep_eq]
    by_cases hr : storeReachable st x.id = true
    · rw [if_pos hr, ih]
      rw [List.filter_cons, if_pos hr, List.countP_cons]
      simp [hr, List.append_assoc]
      omega
    · rw [if_neg hr, ih]
      rw [List.filter_cons, if_neg hr, List.countP_cons]
      simp only [Bool.not_eq_true] at hr
      simp [hr]

/-- C7 (amended): a scatter search never aborts: it returns the matches
of every reachable active worker (all of them when the gathered total
fits the request limit), and the count it reports in its summary,
shards_searched, is the number of active workers successfully searched;
unreachable workers are silently skipped and no failure count appears in
the summary. -/
theorem scatter_search_resilience (st : Sys) (req : SearchRequest) :
    (smart_search st req).shards_searched = (reachableActive st).length ∧
    (smart_search st req).results = (gatherAll st req).take req.limit ∧
    (smart_search st req).total = (gatherAll st req).length ∧
    ((gatherAll st req).length ≤ req.limit →
      ∀ w ∈ reachableActive st, ∀ h ∈ shardHits st req w,
        h ∈ (smart_search st req).results) := by
  have hfold := foldSearch_eq st req
    (st.master.workers.filter (fun w => w.is_active)) ([], 0)
  have hsum : smart_search st req =
      { results := (gatherAll st req).take req.limit
        total := (gatherAll st req).length
        shards_searched :=
          (st.master.workers.filter (fun w => w.is_active)).countP
            (fun w => storeReachable st w.id)
        query := req.query } := by
    simp only [smart_search]
    rw [hfold]
    simp [gatherAll, reachableActive]
  refine ⟨?_, ?_, ?_, ?_⟩
  · rw [hsum]
    unfold reachableActive
    exact List.countP_eq_length_filter _ _
  · rw [hsum]
  · rw [hsum]
  · intro hlen w hw h hh
    rw [hsum]
    simp only
    rw [List.take_of_length_le hlen]
    exact List.mem_flatMap.mpr ⟨w, hw, hh⟩

/-- Modelled from the spec: the per-node failure count the spec says a
search reports; src/ returns no such field, so this follows the words of
the spec: the number of active workers whose probe during the scatter
fails. -/
def specSearchFailureCount (st : Sys) : Nat :=
  (st.master.workers.filter (fun w => w.is_active)).countP
    (fun w => !storeReachable st w.id)

/-- A record that matches the C7 search on worker i. -/
def c7Record (i : String) : DataRecord :=
  { id := "r" ++ i, collection := "default",
    data := .cons "tag" (.str "hit") .nil,
    owner_id := some "u1", schema_name := none, size_bytes := 23,
    tags := [] }

/-- Three active workers; w3 is unreachable during the search. -/
def c7State : Sys :=
  { master :=
      { workers :=
          [{ id := "w1", name := "n1", db_url := "postgresql://h/1",
             is_active := true, is_healthy := true, size_bytes := 23,
             record_count := 1, latency_ms := 0, last_ping := none },
           { id := "w2", name := "n2", db_url := "postgresql://h/2",
             is_active := true, is_healthy := true, size_bytes := 23,
             record_count := 1, latency_ms := 0, last_ping := none },
           { id := "w3", name := "n3", db_url := "postgresql://h/3",
             is_active := true, is_healthy := true, size_bytes := 23,
             record_count := 1, latency_ms := 0, last_ping := none }]
        mappings :=
          [{ record_id := "rw1", worker_id := "w1", collection := "default",
             user_id := some "u1" },
           { record_id := "rw2", worker_id := "w2", collection := "default",
             user_id := some "u1" },
           { record_id := "rw3", worker_id := "w3", collection := "default",
             user_id := some "u1" }]
        schemas := [], shard_limit_mb := 950, anti_sleep_enabled := "true" }
    stores := [{ worker_id := "w1", reachable := true, records := [c7Record "w1"] },
               { worker_id := "w2", reachable := true, records := [c7Record "w2"] },
               { worker_id := "w3", reachable := false, records := [c7Record "w3"] }] }

/-- The search request used against c7State. -/
def c7Req : SearchRequest :=
  { query := "hit", collection := none, limit := 50 }

/-- Counterexample to C7 as stated: with one of three active workers
unreachable, the call succeeds and returns the two reachable workers'
matches, but no component of its summary equals the per-node failure
count 1 - the reported shards_searched counts the successes. -/
theorem scatter_failure_count_counterexample :
    (smart_search c7State c7Req).shards_searched = 2 ∧
    (smart_search c7State c7Req).total = 2 ∧
    (smart_search c7State c7Req).results.length = 2 ∧
    specSearchFailureCount c7State = 1 ∧
    (2 : Nat) ≠ 1 := by
  refine ⟨by decide, by decide, by decide, by decide, by decide⟩

/-- The first worker of c7State, reachable during the search. -/
def c7w1 : WorkerDB :=
  { id := "w1", name := "n1", db_url := "postgresql://h/1",
    is_active := true, is_healthy := true, size_bytes := 23,
    record_count := 1, latency_ms := 0, last_ping := none }

/-- The search hit contributed by c7w1. -/
def c7hit : SearchHit :=
  { id := "rw1", collection := "default",
    data := .cons "tag" (.str "hit") .nil, tags := [],
    worker_id := "w1", worker_name := "n1" }

/-- Witness for the amended C7 on c7State. -/
theorem scatter_search_resilience_witness :
    (smart_search c7State c7Req).shards_searched =
      (reachableActive c7State).length ∧
    (gatherAll c7State c7Req).length ≤ c7Req.limit ∧
    c7w1 ∈ reachableActive c7State ∧
    c7hit ∈ shardHits c7State c7Req c7w1 ∧
    c7hit ∈ (smart_search c7State c7Req).results :=
  ⟨(scatter_search_resilience c7State c7Req).1, by decide, by decide, by decide,
   (scatter_search_resilience c7State c7Req).2.2.2 (by decide) c7w1 (by decide)
     c7hit (by decide)⟩

/-! Claim C4: write followed by read. -/

/-- How get_record succeeds: resolve the mapping, the worker row, the
worker store (which must answer), then the record. -/
theorem get_record_ok (st : Sys) (rid : String) (mp : DataMapping)
    (w : WorkerDB) (store : WorkerStore) (r : DataRecord)
    (h1 : st.master.mappings.find? (fun q => q.record_id == rid) = some mp)
    (h2 : get_worker_by_id st.master mp.worker_id = some w)
    (h3 : findStore st w.id = some store)
    (h4 : store.reachable = true)
    (h5 : store.records.find? (fun q => q.id == rid) = some r) :
    get_record st rid = .ok r.id r.collection r.data r.tags r.size_bytes w.name := by
  simp only [get_record, h1, h2, h3, h4, h5, if_true]

/-- The state and response a successful write produces: the record is
appended to the chosen worker store, a mapping row is appended, and the
chosen worker's counters grow by the serialized size and one record. -/
theorem write_record_success_eq (st : Sys) (req : DataWriteRequest)
    (user_id rec_id : String) (w : WorkerDB) (store : WorkerStore)
    (hschema : schemaViolation st.master req = none)
    (hW : get_available_worker st.master = some w)
    (hstore : findStore st w.id = some store)
    (hreach : store.reachable = true) :
    write_record st req user_id rec_id =
      ({ master :=
           update_worker_stats
             { st.master with
               mappings := st.master.mappings ++
                 [{ record_id := rec_id, worker_id := w.id,
                    collection := req.collection, user_id := some user_id }] }
             w.id (jsonSizeObj req.data) 1
         stores :=
           updFirst (fun s => s.worker_id == w.id)
             (fun s => { s with records := store.records ++
               [{ id := rec_id, collection := req.collection, data := req.data,
                  owner_id := some user_id, schema_name := req.schema_name,
                  size_bytes := (jsonSizeObj req.data : Int), tags := req.tags }] })
             st.stores },
       .ok rec_id w.name req.collection (jsonSizeObj req.data)) := by
  simp only [write_record, hschema, hW, hstore, hreach, if_true]
  rfl

/-- C4: a successful write of a fresh record id followed immediately by
a read of that id returns the same payload (the JSON object round-trips
unchanged) together with the name of the worker that stored it. -/
theorem write_read_round_trip (st : Sys) (req : DataWriteRequest)
    (user_id rec_id : String) (w : WorkerDB) (store : WorkerStore)
    (hschema : schemaViolation st.master req = none)
    (hW : get_available_worker st.master = some w)
    (hstore : findStore st w.id = some store)
    (hreach : store.reachable = true)
    (hnodup : (st.master.workers.map (fun v => v.id)).Nodup)
    (hfreshM : ∀ mp ∈ st.master.mappings, mp.record_id ≠ rec_id)
    (hfreshR : ∀ r ∈ store.records, r.id ≠ rec_id) :
    (write_record st req user_id rec_id).2 =
      .ok rec_id w.name req.collection (jsonSizeObj req.data) ∧
    get_record (write_record st req user_id rec_id).1 rec_id =
      .ok rec_id req.collection req.data req.tags
        ((jsonSizeObj req.data : Int)) w.name := by
  have heq := write_record_success_eq st req user_id rec_id w store hschema hW
    hstore hreach
  rw [heq]
  have hwmem : w ∈ st.master.workers := by
    have hmem := minBySize_mem _ _ hW
    exact (List.mem_filter.mp hmem).1
  have hwfind : st.master.workers.find? (fun v => v.id == w.id) = some w := by
    exact find?_key_of_mem_nodup (fun v : WorkerDB => v.id) st.master.workers w
      hwmem hnodup
  refine ⟨rfl, ?_⟩
  refine get_record_ok _ rec_id
    { record_id := rec_id, worker_id := w.id,
      collection := req.collection, user_id := some user_id }
    ({ w with size_bytes := max 0 (w.size_bytes + (jsonSizeObj req.data : Int)),
              record_count := max 0 (w.record_count + 1) })
    ({ store with records := store.records ++
        [{ id := rec_id, collection := req.collection, data := req.data,
           owner_id := some user_id, schema_name := req.schema_name,
           size_bytes := (jsonSizeObj req.data : Int), tags := req.tags }] })
    { id := rec_id, collection := req.collection, data := req.data,
      owner_id := some user_id, schema_name := req.schema_name,
      size_bytes := (jsonSizeObj req.data : Int), tags := req.tags }
    ?_ ?_ ?_ hreach ?_
  · show (st.master.mappings ++ [_]).find? _ = _
    rw [List.find?_append]
    have h1 : st.master.mappings.find? (fun q => q.record_id == rec_id) = none := by
      rw [List.find?_eq_none]
      intro mp hmp
      simpa using hfreshM mp hmp
    rw [h1]
    simp [List.find?_cons]
  · show (updFirst (fun v => v.id == w.id) _ st.master.workers).find? _ = _
    rw [updFirst_find?_eq _ _ _ (fun x hx => by simpa using hx), hwfind]
    rfl
  · show (updFirst (fun s => s.worker_id == w.id) _ st.stores).find? _ = _
    unfold findStore at hstore
    rw [updFirst_find?_eq _ _ _ (fun x hx => by simpa using hx), hstore]
    rfl
  · show (store.records ++ [_]).find? _ = _
    rw [List.find?_append]
    have h1 : store.records.find? (fun q => q.id == rec_id) = none := by
      rw [List.find?_eq_none]
      intro r hr
      simpa using hfreshR r hr
    rw [h1]
    simp [List.find?_cons]

/-- Initial state for the C4 witness: one empty worker. -/
def c4State : Sys :=
  { master :=
      { workers := [{ id := "w1", name := "n1", db_url := "postgresql://h/1",
                      is_active := true, is_healthy := true, size_bytes := 0,
                      record_count := 0, latency_ms := 0, last_ping := none }]
        mappings := [], schemas := [], shard_limit_mb := 950
        anti_sleep_enabled := "true" }
    stores := [{ worker_id := "w1", reachable := true, records := [] }] }

/-- The worker row of c4State. -/
def c4Worker : WorkerDB :=
  { id := "w1", name := "n1", db_url := "postgresql://h/1",
    is_active := true, is_healthy := true, size_bytes := 0,
    record_count := 0, latency_ms := 0, last_ping := none }

/-- The store of c4State. -/
def c4Store : WorkerStore := { worker_id := "w1", reachable := true, records := [] }

/-- The write request of the C4 witness. -/
def c4Req : DataWriteRequest :=
  { collection := "default", data := .cons "a" (.num 1) .nil,
    schema_name := none, tags := ["t"] }

/-- Witness for C4 on c4State. -/
theorem write_read_round_trip_witness :
    schemaViolation c4State.master c4Req = none ∧
    get_available_worker c4State.master = some c4Worker ∧
    findStore c4State "w1" = some c4Store ∧
    ((write_record c4State c4Req "u1" "r1").2 =
      .ok "r1" "n1" "default" (jsonSizeObj c4Req.data) ∧
    get_record (write_record c4State c4Req "u1" "r1").1 "r1" =
      .ok "r1" "default" c4Req.data ["t"]
        ((jsonSizeObj c4Req.data : Int)) "n1") :=
  ⟨by decide, by decide, by decide,
   write_read_round_trip c4State c4Req "u1" "r1" c4Worker c4Store (by decide)
     (by decide) (by decide) (by decide) (by decide) (by decide) (by decide)⟩

/-! Claim C5: delete correctness. -/

/-- The state and response of a delete that finds the mapping, the
worker, a reachable store and the record. -/
theorem delete_record_success_eq (st : Sys) (k : String) (mp : DataMapping)
    (w : WorkerDB) (store : WorkerStore) (r : DataRecord)
    (hmap : st.master.mappings.find? (fun q => q.record_id == k) = some mp)
    (hw : get_worker_by_id st.master mp.worker_id = some w)
    (hstore : findStore st w.id = some store)
    (hreach : store.reachable = true)
    (hrec : store.records.find? (fun q => q.id == k) = some r) :
    delete_record st k =
      ({ master :=
           { workers :=
               (update_worker_stats st.master w.id (-r.size_bytes) (-1)).workers
             mappings :=
               removeFirst (fun q => q.record_id == k) st.master.mappings
             schemas := st.master.schemas
             shard_limit_mb := st.master.shard_limit_mb
             anti_sleep_enabled := st.master.anti_sleep_enabled }
         stores :=
           updFirst (fun s => s.worker_id == w.id)
             (fun s => { s with
               records := removeFirst (fun q => q.id == k) store.records })
             st.stores },
       .ok k) := by
  simp only [delete_record, hmap, hw, hstore, hreach, hrec, if_true]
  rfl

/-- C5: deleting a key whose mapping, worker and record all resolve (and
whose worker counters are consistent: at least the record size and one
record on the books) removes the mapping, so a subsequent read reports
not-found, and decrements the worker's usage by exactly the recorded
size and record count by exactly one. -/
theorem delete_removes_and_decrements (st : Sys) (k : String)
    (mp : DataMapping) (w : WorkerDB) (store : WorkerStore) (r : DataRecord)
    (hmap : st.master.mappings.find? (fun q => q.record_id == k) = some mp)
    (hone : st.master.mappings.countP (fun q => q.record_id == k) ≤ 1)
    (hw : get_worker_by_id st.master mp.worker_id = some w)
    (hstore : findStore st w.id = some store)
    (hreach : store.reachable = true)
    (hrec : store.records.find? (fun q => q.id == k) = some r)
    (hsz : r.size_bytes ≤ w.size_bytes)
    (hct : 1 ≤ w.record_count) :
    (delete_record st k).2 = .ok k ∧
    get_record (delete_record st k).1 k = .error 404 "Record not found" ∧
    get_worker_by_id (delete_record st k).1.master mp.worker_id =
      some { w with size_bytes := w.size_bytes - r.size_bytes,
                    record_count := w.record_count - 1 } := by
  have heq := delete_record_success_eq st k mp w store r hmap hw hstore hreach hrec
  unfold get_worker_by_id at hw
  have hwid : w.id = mp.worker_id := by simpa using List.find?_some hw
  rw [← hwid] at hw
  refine ⟨by rw [heq], ?_, ?_⟩
  · rw [heq]
    have hnone : (removeFirst (fun q => q.record_id == k)
        st.master.mappings).find? (fun q => q.record_id == k) = none :=
      removeFirst_find?_none _ _ hone
    simp only [get_record, hnone]
  · rw [heq]
    show (updFirst (fun v => v.id == w.id) _
      st.master.workers).find? (fun v => v.id == mp.worker_id) = _
    rw [← hwid]
    rw [updFirst_find?_eq _ _ _ (fun x hx => by simpa using hx), hw]
    have hA : max 0 (w.size_bytes + -r.size_bytes) = w.size_bytes - r.size_bytes := by
      omega
    have hB : max 0 (w.record_count + -1) = w.record_count - 1 := by
      omega
    simp only [Option.map_some', hA, hB]

/-- State for the C5 witness: one worker holding one 8-byte record. -/
def c5State : Sys :=
  { master :=
      { workers := [{ id := "w1", name := "n1", db_url := "postgresql://h/1",
                      is_active := true, is_healthy := true, size_bytes := 8,
                      record_count := 1, latency_ms := 0, last_ping := none }]
        mappings := [{ record_id := "r1", worker_id := "w1",
                       collection := "default", user_id := some "u1" }]
        schemas := [], shard_limit_mb := 950, anti_sleep_enabled := "true" }
    stores := [{ worker_id := "w1", reachable := true,
                 records := [{ id := "r1", collection := "default",
                               data := .cons "a" (.num 1) .nil,
                               owner_id := some "u1", schema_name := none,
                               size_bytes := 8, tags := [] }] }] }

/-- The mapping row of c5State. -/
def c5Mapping : DataMapping :=
  { record_id := "r1", worker_id := "w1", collection := "default",
    user_id := some "u1" }

/-- The worker row of c5State. -/
def c5Worker : WorkerDB :=
  { id := "w1", name := "n1", db_url := "postgresql://h/1",
    is_active := true, is_healthy := true, size_bytes := 8,
    record_count := 1, latency_ms := 0, last_ping := none }

/-- The store of c5State. -/
def c5Store : WorkerStore :=
  { worker_id := "w1", reachable := true,
    records := [{ id := "r1", collection := "default",
                  data := .cons "a" (.num 1) .nil,
                  owner_id := some "u1", schema_name := none,
                  size_bytes := 8, tags := [] }] }

/-- The record of c5State. -/
def c5Record : DataRecord :=
  { id := "r1", collection := "default", data := .cons "a" (.num 1) .nil,
    owner_id := some "u1", schema_name := none, size_bytes := 8, tags := [] }

/-- Witness for C5 on c5State. -/
theorem delete_removes_and_decrements_witness :
    c5State.master.mappings.find? (fun q => q.record_id == "r1") =
      some c5Mapping ∧
    get_worker_by_id c5State.master "w1" = some c5Worker ∧
    ((delete_record c5State "r1").2 = .ok "r1" ∧
     get_record (delete_record c5State "r1").1 "r1" =
       .error 404 "Record not found" ∧
     get_worker_by_id (delete_record c5State "r1").1.master "w1" =
       some { c5Worker with size_bytes := 0, record_count := 0 }) :=
  ⟨by decide, by decide,
   delete_removes_and_decrements c5State "r1" c5Mapping c5Worker c5Store
     c5Record (by decide) (by decide) (by decide) (by decide) (by decide)
     (by decide) (by decide) (by decide)⟩

/-! Claim C2: what a second write does to an existing record. -/

/-- C2 (amended): the write endpoint has no update path - every call
stores a brand-new record under the fresh server-generated id on the
worker selected at that call and appends a new mapping row.  An existing
key is never touched: its mapping row (and so its node) is unchanged,
the number of mapping rows for it is unchanged, and the record stored
under it on every node keeps its payload, while the mapping count for
the fresh id grows by one. -/
theorem write_never_updates_existing (st : Sys) (req : DataWriteRequest)
    (user_id rec_id k : String) (w : WorkerDB) (store : WorkerStore)
    (hschema : schemaViolation st.master req = none)
    (hW : get_available_worker st.master = some w)
    (hstore : findStore st w.id = some store)
    (hreach : store.reachable = true)
    (hk : k ≠ rec_id) :
    (write_record st req user_id rec_id).1.master.mappings.find?
        (fun q => q.record_id == k) =
      st.master.mappings.find? (fun q => q.record_id == k) ∧
    (write_record st req user_id rec_id).1.master.mappings.countP
        (fun q => q.record_id == k) =
      st.master.mappings.countP (fun q => q.record_id == k) ∧
    (write_record st req user_id rec_id).1.master.mappings.countP
        (fun q => q.record_id == rec_id) =
      st.master.mappings.countP (fun q => q.record_id == rec_id) + 1 ∧
    ∀ wid, ((findStore (write_record st req user_id rec_id).1 wid).map
        (fun s => s.records.find? (fun q => q.id == k))) =
      ((findStore st wid).map
        (fun s => s.records.find? (fun q => q.id == k))) := by
  have heq := write_record_success_eq st req user_id rec_id w store hschema hW
    hstore hreach
  rw [heq]
  have hkne : (rec_id == k) = false := beq_eq_false_iff_ne.mpr (Ne.symm hk)
  refine ⟨?_, ?_, ?_, ?_⟩
  · show (st.master.mappings ++ [_]).find? _ = _
    rw [List.find?_append]
    have h2 : ([({ record_id := rec_id,
                   worker_id := w.id,
                   collection := req.collection,
                   user_id := some user_id } :
          DataMapping)]).find? (fun q => q.record_id == k) = none := by
      simp [List.find?_cons, hkne]
    rw [h2, Option.or_none]
  · show (st.master.mappings ++ [_]).countP _ = _
    rw [List.countP_append]
    simp [List.countP_cons, hkne]
  · show (st.master.mappings ++ [_]).countP _ = _
    rw [List.countP_append]
    simp [List.countP_cons]
  · intro wid
    unfold findStore
    by_cases hww : wid = w.id
    · rw [hww]
      have hstoreR := hstore
      unfold findStore at hstoreR
      rw [updFirst_find?_eq _ _ _ (fun x hx => by simpa using hx), hstoreR]
      simp only [Option.map_some']
      have h5 : (store.records ++
          [({ id := rec_id,
              collection := req.collection,
              data := req.data,
              owner_id := some user_id,
              schema_name := req.schema_name,
              size_bytes := (jsonSizeObj req.data : Int),
              tags := req.tags } :
            DataRecord)]).find? (fun q => q.id == k) =
          store.records.find? (fun q => q.id == k) := by
        rw [List.find?_append]
        have h6 : ([({ id := rec_id,
                       collection := req.collection,
                       data := req.data,
                       owner_id := some user_id,
                       schema_name := req.schema_name,
                       size_bytes := (jsonSizeObj req.data : Int),
                       tags := req.tags } :
              DataRecord)]).find? (fun q => q.id == k) = none := by
          simp [List.find?_cons, hkne]
        rw [h6, Option.or_none]
      rw [h5]
    · rw [updFirst_find?_ne _ _ _ _ (fun x hx => by
        have hxe : x.worker_id = w.id := by simpa using hx
        constructor <;>
          · rw [beq_eq_false_iff_ne, hxe]
            exact fun hcon => hww hcon.symm)]

/-- Initial state for the C2 counterexample: one empty worker. -/
def c2State : Sys :=
  { master :=
      { workers := [{ id := "w1", name := "n1", db_url := "postgresql://h/1",
                      is_active := true, is_healthy := true, size_bytes := 0,
                      record_count := 0, latency_ms := 0, last_ping := none }]
        mappings := [], schemas := [], shard_limit_mb := 950
        anti_sleep_enabled := "true" }
    stores := [{ worker_id := "w1", reachable := true, records := [] }] }

/-- First payload written under key k1. -/
def c2p1 : JObj := .cons "v" (.num 1) .nil

/-- Second payload, sent in the later write call. -/
def c2p2 : JObj := .cons "v" (.num 2) .nil

/-- The write request carrying a given payload. -/
def c2Req (p : JObj) : DataWriteRequest :=
  { collection := "default", data := p, schema_name := none, tags := [] }

/-- The state after the first write of payload c2p1 (stored as k1). -/
def c2St1 : Sys := (write_record c2State (c2Req c2p1) "u1" "k1").1

/-- Counterexample to C2 as stated: a second write call with a different
payload does not update the existing record in place - it routes to the
currently selected worker, creating a second record under a fresh id and
a second mapping row, while the record stored under k1 still holds the
first payload. -/
theorem write_update_counterexample :
    (write_record c2St1 (c2Req c2p2) "u1" "k2").2 =
      .ok "k2" "n1" "default" (jsonSizeObj c2p2) ∧
    get_record (write_record c2St1 (c2Req c2p2) "u1" "k2").1 "k1" =
      .ok "k1" "default" c2p1 [] ((jsonSizeObj c2p1 : Int)) "n1" ∧
    c2p1 ≠ c2p2 ∧
    (write_record c2St1 (c2Req c2p2) "u1" "k2").1.master.mappings.length = 2 := by
  refine ⟨by decide, by decide, by decide, by decide⟩

/-- The worker row of c2St1 (8 bytes on the books after the first
write). -/
def c2Worker1 : WorkerDB :=
  { id := "w1", name := "n1", db_url := "postgresql://h/1",
    is_active := true, is_healthy := true, size_bytes := 8,
    record_count := 1, latency_ms := 0, last_ping := none }

/-- The store of c2St1, holding the record written first. -/
def c2Store1 : WorkerStore :=
  { worker_id := "w1", reachable := true,
    records := [{ id := "k1", collection := "default", data := c2p1,
                  owner_id := some "u1", schema_name := none,
                  size_bytes := 8, tags := [] }] }

/-- Witness for the amended C2 on the second write against c2St1. -/
theorem write_never_updates_existing_witness :
    get_available_worker c2St1.master = some c2Worker1 ∧
    findStore c2St1 "w1" = some c2Store1 ∧
    ((write_record c2St1 (c2Req c2p2) "u1" "k2").1.master.mappings.find?
        (fun q => q.record_id == "k1") =
      c2St1.master.mappings.find? (fun q => q.record_id == "k1") ∧
    (write_record c2St1 (c2Req c2p2) "u1" "k2").1.master.mappings.countP
        (fun q => q.record_id == "k1") =
      c2St1.master.mappings.countP (fun q => q.record_id == "k1") ∧
    (write_record c2St1 (c2Req c2p2) "u1" "k2").1.master.mappings.countP
        (fun q => q.record_id == "k2") =
      c2St1.master.mappings.countP (fun q => q.record_id == "k2") + 1 ∧
    ∀ wid, ((findStore (write_record c2St1 (c2Req c2p2) "u1" "k2").1 wid).map
        (fun s => s.records.find? (fun q => q.id == "k1"))) =
      ((findStore c2St1 wid).map
        (fun s => s.records.find? (fun q => q.id == "k1")))) :=
  ⟨by decide, by decide,
   write_never_updates_existing c2St1 (c2Req c2p2) "u1" "k2" "k1" c2Worker1
     c2Store1 (by decide) (by decide) (by decide) (by decide) (by decide)⟩

end ShardRouter
